import Mathlib

/-!
# Verification of serverless-plugin-pubsub

A shallow embedding of the resource-graph construction and resolution engine
of `serverless-plugin-pubsub` (src/index.js, src/models/*.js), together with
theorems settling the specification claims about it.

JavaScript objects appearing in configuration are modelled by the inductive
type `JVal` (ordered association lists for objects); `Object.assign` becomes
`assign2`/`assignProps`; JS truthiness of configuration values becomes
`jsTruthy`.  Mutable plugin state (the `topics`/`queues`/`subscriptions`
arrays) is threaded explicitly: each state-mutating method becomes a function
from the state it reads to the state it produces.
-/

namespace PubSubPlugin

/-- A JavaScript value as it occurs in plugin configuration and generated
CloudFormation resources.  Objects are ordered association lists, matching
JS object key insertion order.  CloudFormation intrinsics such as
`\x7bRef: x\x7d` are plain objects, exactly as in the JS source. -/
inductive JVal where
  | null : JVal
  | bool : Bool → JVal
  | num : Int → JVal
  | str : String → JVal
  | arr : List JVal → JVal
  | obj : List (String × JVal) → JVal

/-- Property lookup `m[k]` on an association list: first binding wins,
`none` models JS `undefined`. -/
def lookupKey {α : Type} : List (String × α) → String → Option α
  | [], _ => none
  | (k', v) :: rest, k => if k' = k then some v else lookupKey rest k

/-- Key-membership test for an association list. -/
def hasKey {α : Type} (m : List (String × α)) (k : String) : Bool :=
  (lookupKey m k).isSome

/-- Assignment `m[k] = v` on a JS object: updates the existing binding in
place (keeping its position) or appends a new binding, matching JS object
key-order semantics. -/
def setKey {α : Type} (m : List (String × α)) (k : String) (v : α) :
    List (String × α) :=
  if hasKey m k then
    m.map (fun kv => if kv.1 = k then (kv.1, v) else kv)
  else
    m ++ [(k, v)]

/-- One step of `Object.assign(base, upd)`: every key of `upd` overrides the
corresponding key of `base` (in place), and keys of `upd` absent from `base`
are appended in order. -/
def assign2 (base upd : List (String × JVal)) : List (String × JVal) :=
  base.map (fun kv =>
    match lookupKey upd kv.1 with
    | some v => (kv.1, v)
    | none => kv)
  ++ upd.filter (fun kv => !(hasKey base kv.1))

/-- `Object.assign(\x7b\x7d, defaults, props, custom)` as used by every
resource generator in index.js: three layers, later ones winning per key. -/
def assignProps (defaults props custom : List (String × JVal)) :
    List (String × JVal) :=
  assign2 (assign2 defaults props) custom

/-- JS truthiness of a `JVal` (`0`, `''`, `false`, `null` are falsy;
objects and arrays are always truthy). -/
def jsTruthy : JVal → Bool
  | .null => false
  | .bool b => b
  | .num n => n ≠ 0
  | .str s => ¬ s.isEmpty
  | .arr _ => true
  | .obj _ => true

/-- JS truthiness of a possibly-absent value (`undefined` is falsy). -/
def jsTruthyOpt : Option JVal → Bool
  | some v => jsTruthy v
  | none => false

/-- JS `a || b` on possibly-absent values. -/
def jsOrV (a b : Option JVal) : Option JVal :=
  match a with
  | some v => if jsTruthy v then some v else b
  | none => b

/-- JS `a || b` for an optional number with a number fallback (`0` is falsy
and falls through, as in JS). -/
def jsOrInt (a : Option Int) (b : Int) : Int :=
  match a with
  | some n => if n ≠ 0 then n else b
  | none => b

/-- JS `s || t` for an optional string (the empty string is falsy). -/
def jsTruthyStr : Option String → Bool
  | some s => ¬ s.isEmpty
  | none => false

/-!
## Entity model (src/models)

Only the fields the resolution engine reads are carried.  `vendorConfig` is
the entity's custom configuration object; `arn` on a `Topic` is its optional
external address.
-/

/-- `Topic` (src/models/topic.js): name, custom configuration, optional
external address. -/
structure Topic where
  name : String
  vendorConfig : List (String × JVal)
  arn : Option String

/-- `Queue` (src/models/queue.js): name and custom configuration. -/
structure SQueue where
  name : String
  vendorConfig : List (String × JVal)

/-- `Func` (src/models/func.js): name and the declared execution timeout
from its serverless configuration (`serverlessConfig.timeout`). -/
structure SFunc where
  name : String
  timeout : Option Int

/-- `getOrSet` (index.js lines 107-114): find an item by name in a
collection, or create it and push it onto the end.  Returns the item
together with the (possibly extended) collection. -/
def getOrSet {α : Type} (name : String) (collection : List α)
    (nameOf : α → String) (create : Unit → α) : α × List α :=
  match collection.find? (fun i => nameOf i == name) with
  | some item => (item, collection)
  | none =>
    let item := create ()
    (item, collection ++ [item])

/-- `getTopic` (index.js lines 191-197): get-or-create a `Topic` by name in
the plugin's `topics` state, seeding its configuration from the
`custom.pubSub.topics` block and its arn from the (optional) external
address of the first reference. -/
def getTopic (customTopics : List (String × List (String × JVal)))
    (topics : List Topic) (topicName : String) (arn : Option String) :
    Topic × List Topic :=
  getOrSet topicName topics Topic.name
    (fun _ => ⟨topicName, (lookupKey customTopics topicName).getD [], arn⟩)

/-- `getQueue` (index.js lines 204-208): get-or-create a `Queue` by name,
seeding its configuration from the `custom.pubSub.queues` block. -/
def getQueue (customQueues : List (String × List (String × JVal)))
    (queues : List SQueue) (queueName : String) : SQueue × List SQueue :=
  getOrSet queueName queues SQueue.name
    (fun _ => ⟨queueName, (lookupKey customQueues queueName).getD []⟩)

/-!
## Event descriptors (src/index.js collection helpers)

A `pubSub` event descriptor is a string (the topic name) or an object with
`topic` and `queue` fields; `topic` is a string or an object with optional
`name`, `arn` and `subscription`; `queue` is a boolean, a string, or an
object with optional `name` and `subscription`. -/

/-- Shape of the `topic` field of a pubSub event descriptor. -/
inductive TopicRef where
  | str : String → TopicRef
  | obj : Option String → Option String →
      Option (List (String × JVal)) → TopicRef

/-- Shape of the `queue` field of a pubSub event descriptor. -/
inductive QueueRef where
  | bool : Bool → QueueRef
  | str : String → QueueRef
  | obj : Option String → Option (List (String × JVal)) → QueueRef

/-- Shape of a pubSub event descriptor. -/
inductive PubSubEvent where
  | str : String → PubSubEvent
  | obj : Option TopicRef → Option QueueRef → PubSubEvent

/-- `pullTopicNameFromEvent` (index.js lines 35-52): a bare string is the
topic name; a string `topic` field is the topic name; an object `topic`
field contributes its `name` property (possibly absent). -/
def pullTopicNameFromEvent : PubSubEvent → Option String
  | .str s => some s
  | .obj topic _ =>
    match topic with
    | some (.str s) => some s
    | some (.obj name _ _) => name
    | none => none

/-- `pullQueueNameFromEvent` (index.js lines 60-75): no/falsy queue field
yields no name; `queue: true` derives `<function>-queue`; a string is the
name itself (the empty string is falsy and short-circuits); an object
yields its `name` property directly — which is absent when the object has
no `name` key. -/
def pullQueueNameFromEvent (pubSub : PubSubEvent) (func : SFunc) :
    Option String :=
  match pubSub with
  | .str _ => none
  | .obj _ queue =>
    match queue with
    | none => none
    | some (.bool false) => none
    | some (.bool true) => some (func.name ++ "-queue")
    | some (.str s) => if s.isEmpty then none else some s
    | some (.obj name _) => name

/-- `topicExternalArn` (index.js lines 102-104): the `arn` property of an
object-shaped `topic` field, when truthy. -/
def topicExternalArn : PubSubEvent → Option String
  | .obj (some (.obj _ (some a) _)) _ => if a.isEmpty then none else some a
  | _ => none

/-- `pullTopicSubscriptionDetailsFromEvent` (index.js lines 93-95); JS
returns `null` when absent, modelled as the empty configuration (both are
ignored by `Object.assign`). -/
def pullTopicSubscriptionDetailsFromEvent : PubSubEvent →
    List (String × JVal)
  | .obj (some (.obj _ _ (some s))) _ => s
  | _ => []

/-- `pullQueueSubscriptionDetailsFromEvent` (index.js lines 83-85). -/
def pullQueueSubscriptionDetailsFromEvent : PubSubEvent →
    List (String × JVal)
  | .obj _ (some (.obj _ (some s))) => s
  | _ => []

/-- Subscription entities (src/models/subscription.js): a tagged union over
the three kinds, each holding its origin, subscriber and per-edge
configuration. -/
inductive PSub where
  | queueToFunc : SQueue → SFunc → List (String × JVal) → PSub
  | topicToQueue : Topic → SQueue → List (String × JVal) → PSub
  | topicToFunc : Topic → SFunc → List (String × JVal) → PSub

/-- Plugin entity state: the `topics`, `queues` and `subscriptions` arrays
of the plugin instance. -/
structure PluginState where
  topics : List Topic
  queues : List SQueue
  subscriptions : List PSub

/-- Body of the per-event loop of `collectPubSubResourcesFromFunctions`
(index.js lines 238-288): resolve the topic (fatally if no name), resolve
the optional queue, and append either a Queue→Function plus Topic→Queue
pair or a single Topic→Function subscription. -/
def collectFromEvent (customTopics customQueues :
      List (String × List (String × JVal)))
    (st : PluginState) (func : SFunc) (pubSub : PubSubEvent) :
    Except String PluginState :=
  let topicNameOpt := pullTopicNameFromEvent pubSub
  if ¬ jsTruthyStr topicNameOpt then
    .error ("No topic could be identified for pubSub subscription to "
      ++ func.name)
  else
    let topicName := topicNameOpt.getD ""
    let externalArn := topicExternalArn pubSub
    let tr := getTopic customTopics st.topics topicName externalArn
    let topicSubDetails := pullTopicSubscriptionDetailsFromEvent pubSub
    let queueNameOpt := pullQueueNameFromEvent pubSub func
    if jsTruthyStr queueNameOpt then
      let qr := getQueue customQueues st.queues (queueNameOpt.getD "")
      .ok ⟨tr.2, qr.2, st.subscriptions ++
        [.queueToFunc qr.1 func (pullQueueSubscriptionDetailsFromEvent
            pubSub),
         .topicToQueue tr.1 qr.1 topicSubDetails]⟩
    else
      .ok ⟨tr.2, st.queues,
        st.subscriptions ++ [.topicToFunc tr.1 func topicSubDetails]⟩

/-!
## Queue visibility-window safety (`adjustQueueVisibilityTimeout`,
index.js lines 487-528)
-/

/-- Queue→Function subscription views, as selected by the
`sub instanceof QueueToFuncSubscription` test of the reduce. -/
def qfSubs (subs : List PSub) : List (SQueue × SFunc) :=
  subs.filterMap (fun s =>
    match s with
    | .queueToFunc q f _ => some (q, f)
    | _ => none)

/-- One step of the reduce building `subsByQueue`: push the subscription
onto the group keyed by its origin queue's name, creating the group on
first occurrence. -/
def insertGroup (acc : List (String × List (SQueue × SFunc)))
    (qf : SQueue × SFunc) : List (String × List (SQueue × SFunc)) :=
  if hasKey acc qf.1.name then
    acc.map (fun kv => if kv.1 = qf.1.name then (kv.1, kv.2 ++ [qf]) else kv)
  else
    acc ++ [(qf.1.name, [qf])]

/-- `subsByQueue` (index.js lines 489-500): Queue→Function subscriptions
grouped by origin queue name, in first-occurrence order. -/
def subsByQueue (subs : List PSub) :
    List (String × List (SQueue × SFunc)) :=
  (qfSubs subs).foldl insertGroup []

/-- Error thrown by `adjustQueueVisibilityTimeout`: the interpolated data of
the message `Specified visibility timeout for <queue> (<configured>s) is
less than function timeout (<max>s)`. -/
structure VisibilityError where
  queueName : String
  configured : JVal
  maxTimeout : Int

/-- Display form of a configuration value inside the error message (the
claims only exercise numeric values). -/
def jvalText : JVal → String
  | .num n => toString n
  | .str s => s
  | .bool b => toString b
  | .null => "null"
  | .arr _ => ""
  | .obj _ => "[object Object]"

/-- Message text of the thrown error, exactly as interpolated by the
source. -/
def visibilityErrorMessage (e : VisibilityError) : String :=
  "Specified visibility timeout for " ++ e.queueName ++ " ("
    ++ jvalText e.configured ++ "s) is less than function timeout ("
    ++ toString e.maxTimeout ++ "s)"

/-- JS `configuredTimeout < maxFunctionTimeout` for a configured value;
the model covers numeric configured values (the configuration schema's
case), on which JS `<` is integer comparison. -/
def jsLtInt (v : JVal) (m : Int) : Bool :=
  match v with
  | .num n => n < m
  | _ => false

/-- Comparison lifted to a possibly-absent configured value. -/
def jsLtOpt (v : Option JVal) (m : Int) : Bool :=
  match v with
  | some w => jsLtInt w m
  | none => false

/-- `Math.max(...timeouts)` over a (nonempty) timeout list. -/
def listMaxInt : List Int → Int
  | [] => 0
  | x :: xs => xs.foldl max x

/-- Body of the per-queue loop of `adjustQueueVisibilityTimeout` (index.js
lines 503-527): the configured window is
`vendorConfig.VisibilityTimeout || queueDefaults.VisibilityTimeout`; each
subscriber timeout falls back to the provider timeout and then to 6; a
truthy configured window below the maximum subscriber timeout throws,
a truthy one at or above it is left alone, and an absent (or falsy) one is
set to maximum + 5 on the queue's configuration. -/
def adjustGroup (providerTimeout : Option Int)
    (queueDefaults : List (String × JVal)) :
    String × List (SQueue × SFunc) →
    Except VisibilityError (String × List (String × JVal))
  | (queueName, group) =>
    match group with
    | [] => .ok (queueName, [])
    | (q, _) :: _ =>
      let vendorConfig := q.vendorConfig
      let configuredTimeout := jsOrV (lookupKey vendorConfig
        "VisibilityTimeout") (lookupKey queueDefaults "VisibilityTimeout")
      let timeouts := group.map
        (fun qf => jsOrInt qf.2.timeout (jsOrInt providerTimeout 6))
      let maxFunctionTimeout := listMaxInt timeouts
      if jsTruthyOpt configuredTimeout then
        if jsLtOpt configuredTimeout maxFunctionTimeout then
          .error ⟨queueName, configuredTimeout.getD .null, maxFunctionTimeout⟩
        else
          .ok (queueName, vendorConfig)
      else
        .ok (queueName, setKey vendorConfig "VisibilityTimeout"
          (.num (maxFunctionTimeout + 5)))

/-- `adjustQueueVisibilityTimeout` (index.js lines 487-528), observed as the
per-queue mapping from queue name to the queue's configuration after the
pass; the first error aborts the pass. -/
def adjustQueueVisibilityTimeout (providerTimeout : Option Int)
    (queueDefaults : List (String × JVal)) (subs : List PSub) :
    Except VisibilityError (List (String × List (String × JVal))) :=
  (subsByQueue subs).mapM (adjustGroup providerTimeout queueDefaults)

/-!
## Resource generation (index.js lines 358-478 and 668-716)

The serverless `naming` collaborator is external to the repository and is
passed in as a record of identifier derivations; the two members the plugin
itself installs (`getActualQueueLogicalId`, `getQueueSubscriptionLogicalId`,
index.js lines 136-140) are defined here from the source. -/

/-- Identifier derivations supplied by the host framework's `naming`
object. -/
structure Naming where
  getTopicLogicalId : String → String
  getLambdaLogicalId : String → String
  getLambdaSnsSubscriptionLogicalId : String → String → String
  getQueueLogicalId : String → String → String
  normalizeNameToAlphaNumericOnly : String → String

/-- `naming.getActualQueueLogicalId` (index.js lines 136-137). -/
def getActualQueueLogicalId (nm : Naming) (queueName : String) : String :=
  "SQSQueue" ++ nm.normalizeNameToAlphaNumericOnly queueName

/-- `naming.getQueueSubscriptionLogicalId` (index.js lines 139-140). -/
def getQueueSubscriptionLogicalId (nm : Naming)
    (topicName queueName : String) : String :=
  getActualQueueLogicalId nm queueName ++ "To"
    ++ nm.getTopicLogicalId topicName ++ "Subscription"

/-- Inputs the resolution pass reads from the host: naming, service and
stage identifiers, offline flag, and the resolved `custom.pubSub.defaults`
sub-blocks (each `defaults.X || \x7b\x7d` getter of index.js lines
559-577). -/
structure Ctx where
  naming : Naming
  service : String
  stage : String
  offlineMode : Bool
  topicDefaults : List (String × JVal)
  queueDefaults : List (String × JVal)
  topicSubscriptionDefaults : List (String × JVal)
  queueSubscriptionDefaults : List (String × JVal)

/-- `stackPrefix` getter (index.js lines 614-619). -/
def stackPrefixOf (ctx : Ctx) : String :=
  ctx.service ++ "-" ++ ctx.stage ++ "-"

/-- `namespaceResource` (index.js lines 606-608). -/
def namespaceResource (ctx : Ctx) (resourceName : String) : String :=
  stackPrefixOf ctx ++ resourceName

/-- `formatTopicArn` (index.js lines 626-642): a literal fabricated address
in offline mode, a CloudFormation join expression otherwise. -/
def formatTopicArn (ctx : Ctx) (topic : Topic) : JVal :=
  if ctx.offlineMode then
    .str ("arn:aws:sns:us-east-1:1234567890123:"
      ++ namespaceResource ctx topic.name)
  else
    .obj [("Fn::Join", .arr [.str ":", .arr [.str "arn",
      .obj [("Ref", .str "AWS::Partition")], .str "sns",
      .obj [("Ref", .str "AWS::Region")],
      .obj [("Ref", .str "AWS::AccountId")],
      .str (namespaceResource ctx topic.name)]])]

/-- JS `topic.arn || fallback`: the topic's literal external address when
truthy, the fallback expression otherwise. -/
def topicArnOr (t : Topic) (fallback : JVal) : JVal :=
  match t.arn with
  | some a => if a.isEmpty then fallback else .str a
  | none => fallback

/-- Truthiness of `topic.arn` (used by the `!t.arn` filter of
`generateAllCustomResources`). -/
def topicArnTruthy (t : Topic) : Bool :=
  match t.arn with
  | some a => ¬ a.isEmpty
  | none => false

/-- Membership test `results.has(result)` of `unique` (index.js lines
18-28): the source adds the Set itself (`results.add(results)`) instead of
the selector result, so the set never contains any selector result and the
test is constantly false. -/
def seenHasResult (_result : String) : Bool :=
  false

/-- `unique` (index.js lines 18-28): intended to deduplicate by selector,
but because of `seenHasResult` the filter keeps every item. -/
def unique {α : Type} (iterable : List α) (selector : α → String) :
    List α :=
  iterable.filter (fun item => !(seenHasResult (selector item)))

/-- Resource value `\x7bType, Properties\x7d` shared by all generators. -/
def mkResource (resType : String) (props : List (String × JVal)) : JVal :=
  .obj [("Type", .str resType), ("Properties", .obj props)]

/-- Computed properties of `generateSQSResource` (index.js lines 381-383). -/
def sqsQueueComputedProps (ctx : Ctx) (queue : SQueue) :
    List (String × JVal) :=
  [("QueueName", .str (namespaceResource ctx queue.name))]

/-- The `Properties` of the `AWS::SQS::Queue` resource:
`Object.assign(\x7b\x7d, queueDefaults, props, queue.vendorConfig)`. -/
def sqsQueueProps (ctx : Ctx) (queue : SQueue) : List (String × JVal) :=
  assignProps ctx.queueDefaults (sqsQueueComputedProps ctx queue)
    queue.vendorConfig

/-- `generateSQSResource` (index.js lines 379-390). -/
def generateSQSResource (ctx : Ctx) (queue : SQueue)
    (resources : List (String × JVal)) : List (String × JVal) :=
  setKey resources (getActualQueueLogicalId ctx.naming queue.name)
    (mkResource "AWS::SQS::Queue" (sqsQueueProps ctx queue))

/-- Computed properties of `generateSNSResource` (index.js lines 398-400). -/
def snsTopicComputedProps (ctx : Ctx) (topic : Topic) :
    List (String × JVal) :=
  [("TopicName", .str (namespaceResource ctx topic.name))]

/-- The `Properties` of the `AWS::SNS::Topic` resource. -/
def snsTopicProps (ctx : Ctx) (topic : Topic) : List (String × JVal) :=
  assignProps ctx.topicDefaults (snsTopicComputedProps ctx topic)
    topic.vendorConfig

/-- `generateSNSResource` (index.js lines 396-407). -/
def generateSNSResource (ctx : Ctx) (topic : Topic)
    (resources : List (String × JVal)) : List (String × JVal) :=
  setKey resources (ctx.naming.getTopicLogicalId topic.name)
    (mkResource "AWS::SNS::Topic" (snsTopicProps ctx topic))

/-- Origin entity name of a subscription. -/
def originName : PSub → String
  | .queueToFunc q _ _ => q.name
  | .topicToQueue t _ _ => t.name
  | .topicToFunc t _ _ => t.name

/-- Subscriber entity name of a subscription. -/
def subscriberName : PSub → String
  | .queueToFunc _ f _ => f.name
  | .topicToQueue _ q _ => q.name
  | .topicToFunc _ f _ => f.name

/-- Per-edge configuration of a subscription. -/
def subVendorConfig : PSub → List (String × JVal)
  | .queueToFunc _ _ c => c
  | .topicToQueue _ _ c => c
  | .topicToFunc _ _ c => c

/-- `sub.origin.arn`: the origin topic's external address (a queue origin
has no arn property). -/
def originArnOf : PSub → Option String
  | .queueToFunc _ _ _ => none
  | .topicToQueue t _ _ => t.arn
  | .topicToFunc t _ _ => t.arn

/-- The `sub instanceof TopicToFuncSubscription` test. -/
def isTopicToFunc : PSub → Bool
  | .topicToFunc _ _ _ => true
  | _ => false

/-- Logical id of the `AWS::SNS::Subscription` resource (index.js lines
414-422). -/
def snsSubscriptionLogicalId (ctx : Ctx) (sub : PSub) : String :=
  if isTopicToFunc sub then
    ctx.naming.getLambdaSnsSubscriptionLogicalId (subscriberName sub)
      (originName sub)
  else
    getQueueSubscriptionLogicalId ctx.naming (originName sub)
      (subscriberName sub)

/-- Computed properties of `generateSNSSubscription` (index.js lines
424-438): `TopicArn` is the origin's literal arn when truthy else a Ref,
`Protocol` is `lambda` or `sqs` by subscription kind, `Endpoint` is a
GetAtt to the subscriber. -/
def snsSubscriptionComputedProps (ctx : Ctx) (sub : PSub) :
    List (String × JVal) :=
  [("TopicArn",
    match originArnOf sub with
    | some a =>
      if a.isEmpty then
        .obj [("Ref", .str (ctx.naming.getTopicLogicalId (originName sub)))]
      else
        .str a
    | none =>
      .obj [("Ref", .str (ctx.naming.getTopicLogicalId (originName sub)))]),
   ("Protocol", .str (if isTopicToFunc sub then "lambda" else "sqs")),
   ("Endpoint", .obj [("Fn::GetAtt", .arr [
     .str (if isTopicToFunc sub then
         ctx.naming.getLambdaLogicalId (subscriberName sub)
       else
         getActualQueueLogicalId ctx.naming (subscriberName sub)),
     .str "Arn"])])]

/-- The `Properties` of the `AWS::SNS::Subscription` resource. -/
def snsSubscriptionProps (ctx : Ctx) (sub : PSub) : List (String × JVal) :=
  assignProps ctx.topicSubscriptionDefaults
    (snsSubscriptionComputedProps ctx sub) (subVendorConfig sub)

/-- `generateSNSSubscription` (index.js lines 413-445). -/
def generateSNSSubscription (ctx : Ctx) (sub : PSub)
    (resources : List (String × JVal)) : List (String × JVal) :=
  setKey resources (snsSubscriptionLogicalId ctx sub)
    (mkResource "AWS::SNS::Subscription" (snsSubscriptionProps ctx sub))

/-- Computed properties of `generateSQSLambdaSubscription` (index.js lines
458-471). -/
def sqsLambdaComputedProps (ctx : Ctx) (sub : PSub) :
    List (String × JVal) :=
  [("EventSourceArn", .obj [("Fn::GetAtt", .arr [
     .str (getActualQueueLogicalId ctx.naming (originName sub)),
     .str "Arn"])]),
   ("FunctionName", .obj [("Fn::GetAtt", .arr [
     .str (ctx.naming.getLambdaLogicalId (subscriberName sub)),
     .str "Arn"])])]

/-- The `Properties` of the `AWS::Lambda::EventSourceMapping` resource. -/
def sqsLambdaSubscriptionProps (ctx : Ctx) (sub : PSub) :
    List (String × JVal) :=
  assignProps ctx.queueSubscriptionDefaults (sqsLambdaComputedProps ctx sub)
    (subVendorConfig sub)

/-- `generateSQSLambdaSubscription` (index.js lines 452-478). -/
def generateSQSLambdaSubscription (ctx : Ctx) (sub : PSub)
    (resources : List (String × JVal)) : List (String × JVal) :=
  setKey resources
    (ctx.naming.getQueueLogicalId (subscriberName sub)
      (getActualQueueLogicalId ctx.naming (originName sub)))
    (mkResource "AWS::Lambda::EventSourceMapping"
      (sqsLambdaSubscriptionProps ctx sub))

/-- The topics loop of `generateAllCustomResources` (index.js lines
363-366): only topics without a hard-coded arn produce a topic resource. -/
def generateTopicResources (ctx : Ctx) (topics : List Topic)
    (resources : List (String × JVal)) : List (String × JVal) :=
  (topics.filter (fun t => !(topicArnTruthy t))).foldl
    (fun r t => generateSNSResource ctx t r) resources

/-- `generateAllCustomResources` (index.js lines 361-372). -/
def generateAllCustomResources (ctx : Ctx) (st : PluginState)
    (resources : List (String × JVal)) : List (String × JVal) :=
  let res1 := st.queues.foldl (fun r q => generateSQSResource ctx q r)
    resources
  let res2 := generateTopicResources ctx st.topics res1
  st.subscriptions.foldl (fun r s =>
    match s with
    | .queueToFunc _ _ _ => generateSQSLambdaSubscription ctx s r
    | _ => generateSNSSubscription ctx s r) res2

/-- Entry contributed by a topic to the publish-permission statement's
`Resource` list (`t.arn || this.formatTopicArn(t)`). -/
def publishResourceEntry (ctx : Ctx) (t : Topic) : JVal :=
  topicArnOr t (formatTopicArn ctx t)

/-- `allowLambdasToPublishSNS` (index.js lines 668-677): pushes one
statement whose `Resource` lists every topic's reference or literal
address. -/
def allowLambdasToPublishSNS (ctx : Ctx) (topics : List Topic)
    (statements : List JVal) : List JVal :=
  statements ++ [.obj [
    ("Effect", .str "Allow"),
    ("Action", .arr [.str "sns:Publish"]),
    ("Resource", .arr (topics.map (publishResourceEntry ctx)))]]

/-- The queue policy resource built by `allowSNSToSQSSubscriptions`
(index.js lines 690-709): one `AWS::SQS::QueuePolicy` listing every queue
once, with a single statement whose `ArnEquals` condition holds the list of
topic references (Ref for local topics, literal address for external
ones). -/
def snsToSQSPolicy (ctx : Ctx) (queues : List SQueue)
    (topics : List Topic) : JVal :=
  .obj [("Type", .str "AWS::SQS::QueuePolicy"),
    ("Properties", .obj [
      ("Queues", .arr ((unique queues SQueue.name).map (fun q =>
        .obj [("Ref", .str (getActualQueueLogicalId ctx.naming q.name))]))),
      ("PolicyDocument", .obj [
        ("Version", .str "2012-10-17"),
        ("Statement", .arr [.obj [
          ("Effect", .str "Allow"),
          ("Principal", .str "*"),
          ("Action", .str "sqs:SendMessage"),
          ("Resource", .str "*"),
          ("Condition", .obj [("ArnEquals", .obj [("aws:SourceArn",
            .arr ((unique topics Topic.name).map (fun t => topicArnOr t
              (.obj [("Ref",
                .str (ctx.naming.getTopicLogicalId t.name))]))))])])]])])])]

/-- `allowSNSToSQSSubscriptions` (index.js lines 682-716): the policy is
stored under the fixed key `SNSToSQSPolicy` (an existing policy resource is
kept as is), and only when both the queue list and the topic list are
nonempty. -/
def allowSNSToSQSSubscriptions (ctx : Ctx) (queues : List SQueue)
    (topics : List Topic) (resources : List (String × JVal)) :
    List (String × JVal) :=
  let queueArns := (unique queues SQueue.name).map (fun q =>
    JVal.obj [("Ref", .str (getActualQueueLogicalId ctx.naming q.name))])
  let topicArns := (unique topics Topic.name).map (fun t => topicArnOr t
    (.obj [("Ref", .str (ctx.naming.getTopicLogicalId t.name))]))
  let policy := (lookupKey resources "SNSToSQSPolicy").getD
    (snsToSQSPolicy ctx queues topics)
  if queueArns.length > 0 ∧ topicArns.length > 0 then
    setKey resources "SNSToSQSPolicy" policy
  else
    resources

/-- Mock naming used for concrete instantiations, mirroring the test
harness's naming stub (strip hyphens for logical ids). -/
def stripDashes (s : String) : String :=
  (s.toList.filter (fun c => !(c == '-'))).asString

/-- Concrete `Naming` record for witnesses. -/
def mockNaming : Naming :=
  ⟨fun n => "SNSTopic" ++ stripDashes n,
   fun n => n ++ "LogicalID",
   fun f t => stripDashes t ++ "To" ++ f,
   fun f q => stripDashes q ++ "To" ++ f,
   stripDashes⟩

/-- Modelled from the spec: merge precedence as the claim states it, from
lowest to highest computed default properties, then the service-wide
default block for the entity kind, then the entity-specific block (spec
sections 3 and 4.3); this is `assignProps` with the two lowest layers
swapped, for comparison with the source's order. -/
def specMergedProps (defaults props custom : List (String × JVal)) :
    List (String × JVal) :=
  assignProps props defaults custom

/-- Navigation through nested generated objects along a key path. -/
def jPath (v : JVal) : List String → Option JVal
  | [] => some v
  | k :: ks =>
    match v with
    | .obj m =>
      match lookupKey m k with
      | some w => jPath w ks
      | none => none
    | _ => none

/-- Array indexing into a generated value. -/
def jIdx (v : JVal) (i : Nat) : Option JVal :=
  match v with
  | .arr l => l.get? i
  | _ => none

/-- `collectPubSubResourcesFromCustomConfig` (index.js lines 295-304):
get-or-create every topic and queue declared in the custom configuration
block, touching no subscriptions. -/
def collectPubSubResourcesFromCustomConfig
    (customTopics customQueues : List (String × List (String × JVal)))
    (st : PluginState) : PluginState :=
  let topics := customTopics.foldl
    (fun ts kv => (getTopic customTopics ts kv.1 none).2) st.topics
  let queues := customQueues.foldl
    (fun qs kv => (getQueue customQueues qs kv.1).2) st.queues
  ⟨topics, queues, st.subscriptions⟩

/-!
## Local delivery simulator (src/models/topic.js, subscription.js,
queue.js)

The simulator's nondeterministic ingredients — wall-clock timestamps and
random sender ids — are threaded as parameters; `JSON.stringify` of the
envelope object is dropped in favour of the object itself, which is what
the envelope-shape claims are about. -/

/-- `Topic.formatMessageDetails` (topic.js lines 31-45): the notification
envelope wrapping a published message. -/
def formatMessageDetails (topicName now messageId message : String) :
    JVal :=
  .obj [
    ("SignatureVersion", .str "1"),
    ("Timestamp", .str now),
    ("Signature", .str "EXAMPLE"),
    ("SigningCertUrl", .str "EXAMPLE"),
    ("MessageId", .str messageId),
    ("Message", .str message),
    ("MessageAttributes", .obj []),
    ("Type", .str "Notification"),
    ("UnsubscribeUrl", .str "EXAMPLE"),
    ("TopicArn", .str ("arn:aws:sns:us-east-1:1234567890123:"
      ++ topicName)),
    ("Subject", .str "TestInvoke")]

/-- `encodeMessage` of the three subscription kinds (subscription.js):
Queue→Function wraps the raw message in an SQS receive-event record (the
source's `this.name` is undefined on a Subscription, so the interpolated
event source arn ends in the text `undefined`); Topic→Queue forwards the
topic's notification envelope; Topic→Function wraps the notification in an
SNS records envelope. -/
def encodeMessage (now : String) (nowMs : Int) (senderId : String)
    (sub : PSub) (messageId message : String) : JVal :=
  match sub with
  | .queueToFunc _ _ _ => .obj [("Records", .arr [.obj [
      ("messageId", .str messageId),
      ("receiptHandle", .str ""),
      ("body", .str message),
      ("attributes", .obj [
        ("ApproximateReceiveCount", .num 1),
        ("SentTimestamp", .num nowMs),
        ("SenderId", .str senderId),
        ("ApproximateFirstReceiveTimestamp", .num nowMs)]),
      ("messageAttributes", .obj []),
      ("md5OfBody", .str "9bb58f26192e4ba00f01e2e7b136bbd8"),
      ("eventSource", .str "aws:sqs"),
      ("eventSourceARN",
        .str "arn:aws:sqs:us-east-1:1234567890123:undefined"),
      ("awsRegion", .str "us-east-1")]])]
  | .topicToQueue t _ _ =>
    formatMessageDetails t.name now messageId message
  | .topicToFunc t _ _ => .obj [("Records", .arr [.obj [
      ("EventVersion", .str "1.0"),
      ("EventSource", .str "aws:sns"),
      ("Sns", formatMessageDetails t.name now messageId message)]])]

/-- One delivery produced by the broadcast channel: the subscriber's name
and the payload its subscription handed it. -/
structure Delivery where
  subscriber : String
  payload : JVal

/-- One `Topic.publish` fan-out over the channel registry: every
subscription registered (by `startServer`'s `subscription.subscribe()`)
on the published topic's channel re-encodes the message according to its
own kind and invokes its subscriber with the result (topic.js line 28,
subscription.js lines 84-90). -/
def publishToSubscriptions (now : String) (nowMs : Int) (senderId : String)
    (subs : List PSub) (topicName messageId message : String) :
    List Delivery :=
  subs.filterMap (fun s =>
    if originName s = topicName then
      some ⟨subscriberName s,
        encodeMessage now nowMs senderId s messageId message⟩
    else
      none)

/-!
## Theorems
-/

/-!
### get-or-create lemmas
-/

theorem getOrSet_of_found {α : Type} {name : String} {l : List α}
    {nameOf : α → String} {create : Unit → α} {x : α}
    (h : l.find? (fun i => nameOf i == name) = some x) :
    getOrSet name l nameOf create = (x, l) := by
  simp [getOrSet, h]

theorem getOrSet_of_not_found {α : Type} {name : String} {l : List α}
    {nameOf : α → String} {create : Unit → α}
    (h : l.find? (fun i => nameOf i == name) = none) :
    getOrSet name l nameOf create = (create (), l ++ [create ()]) := by
  simp [getOrSet, h]

/-- After a `getOrSet` whose created item carries the looked-up name, a
second `getOrSet` of the same name returns the first result and leaves the
collection unchanged. -/
theorem getOrSet_idem {α : Type} (name : String) (l : List α)
    (nameOf : α → String) (create create' : Unit → α)
    (hc : nameOf (create ()) = name) :
    getOrSet name (getOrSet name l nameOf create).2 nameOf create' =
      ((getOrSet name l nameOf create).1,
       (getOrSet name l nameOf create).2) := by
  cases h : l.find? (fun i => nameOf i == name) with
  | some x =>
    rw [getOrSet_of_found h]
    rw [getOrSet_of_found h]
  | none =>
    rw [getOrSet_of_not_found h]
    have hfind : (l ++ [create ()]).find? (fun i => nameOf i == name)
        = some (create ()) := by
      rw [List.find?_append, h]
      simp [hc]
    rw [getOrSet_of_found hfind]

theorem find?_append_create {α : Type} {name : String} {l : List α}
    {nameOf : α → String} {x : α}
    (h : l.find? (fun i => nameOf i == name) = none)
    (hx : nameOf x = name) :
    (l ++ [x]).find? (fun i => nameOf i == name) = some x := by
  rw [List.find?_append, h]
  simp [hx]

/-- C3: resolving the same topic name any number of times — via a function's
pubSub event (`collectPubSubResourcesFromFunctions`), the custom
configuration block (`collectPubSubResourcesFromCustomConfig`), or the
`pubSubTopic` address-substitution resolver, all of which call `getTopic` —
yields exactly one `Topic` entity: the second resolution returns the
instance produced by the first (with its configuration intact) and leaves
the topic collection unchanged, and when the name was previously absent the
collection afterwards holds exactly one topic of that name. -/
theorem topic_resolution_idempotent
    (ct : List (String × List (String × JVal))) (s : List Topic)
    (n : String) (a1 a2 : Option String) :
    (getTopic ct (getTopic ct s n a1).2 n a2).1 = (getTopic ct s n a1).1
    ∧ (getTopic ct (getTopic ct s n a1).2 n a2).2 = (getTopic ct s n a1).2
    ∧ (s.countP (fun t => t.name == n) = 0 →
        (getTopic ct s n a1).2.countP (fun t => t.name == n) = 1) := by
  have hidem := getOrSet_idem n s Topic.name
    (fun _ => ⟨n, (lookupKey ct n).getD [], a1⟩)
    (fun _ => ⟨n, (lookupKey ct n).getD [], a2⟩) rfl
  refine ⟨?_, ?_, ?_⟩
  · exact congrArg Prod.fst hidem
  · exact congrArg Prod.snd hidem
  · intro hzero
    cases h : s.find? (fun t => t.name == n) with
    | some x =>
      exfalso
      have hmem := List.mem_of_find?_eq_some h
      have hpx := List.find?_some h
      have := (List.countP_eq_zero.mp hzero) x hmem
      exact this hpx
    | none =>
      show (getOrSet n s Topic.name _).2.countP _ = 1
      rw [getOrSet_of_not_found h]
      rw [List.countP_append]
      rw [List.countP_eq_zero.mpr (fun x hx => by
        have := List.find?_eq_none.mp h x hx
        simpa using this)]
      simp [List.countP_cons]

/-- C3 witness: concrete instantiation at topic name `foo-happened`, first
resolved via a subscription (no external address) and then via
address-substitution. -/
theorem topic_resolution_idempotent_witness :
    (getTopic [] (getTopic [] [] "foo-happened" none).2 "foo-happened"
        (some "arn:ext")).1 = (getTopic [] [] "foo-happened" none).1
    ∧ (getTopic [] [] "foo-happened" none).2.countP
        (fun t => t.name == "foo-happened") = 1 := by
  refine ⟨(topic_resolution_idempotent [] [] "foo-happened" none
    (some "arn:ext")).1, ?_⟩
  exact (topic_resolution_idempotent [] [] "foo-happened" none
    (some "arn:ext")).2.2 rfl

/-- C10: a `Topic`'s external address is fixed at first creation.  If a
topic of the given name already exists, `getTopic` with any arn argument
returns that instance and leaves the state unchanged (the new arn is
ignored); in particular a topic first created without an external address
keeps `arn = none` through every later resolution, even one supplying an
external address. -/
theorem topic_external_address_fixed
    (ct : List (String × List (String × JVal))) (s : List Topic)
    (n : String) (a1 a2 : Option String) :
    (∀ t : Topic, s.find? (fun i => i.name == n) = some t →
        getTopic ct s n a2 = (t, s))
    ∧ (s.find? (fun i => i.name == n) = none →
        (getTopic ct s n a1).1.arn = a1
        ∧ (getTopic ct (getTopic ct s n a1).2 n a2).1.arn = a1
        ∧ (getTopic ct (getTopic ct s n a1).2 n a2).2
            = (getTopic ct s n a1).2) := by
  constructor
  · intro t ht
    exact getOrSet_of_found ht
  · intro hnone
    have h1 : getTopic ct s n a1 =
        ((⟨n, (lookupKey ct n).getD [], a1⟩ : Topic),
         s ++ [⟨n, (lookupKey ct n).getD [], a1⟩]) :=
      getOrSet_of_not_found hnone
    have hfind := find?_append_create (x := (⟨n, (lookupKey ct n).getD [],
      a1⟩ : Topic)) hnone rfl
    refine ⟨by rw [h1], ?_, ?_⟩
    · show (getOrSet n (getTopic ct s n a1).2 Topic.name _).1.arn = a1
      rw [h1, getOrSet_of_found hfind]
    · show (getOrSet n (getTopic ct s n a1).2 Topic.name _).2
        = (getTopic ct s n a1).2
      rw [h1, getOrSet_of_found hfind]

/-- C10 witness: a topic first referenced without an external address via
the custom configuration path, then re-resolved with an external address by
a pubSub event, keeps `arn = none`. -/
theorem topic_external_address_fixed_witness :
    (getTopic [] [] "ext-topic" none).1.arn = none
    ∧ (getTopic [] (getTopic [] [] "ext-topic" none).2 "ext-topic"
        (some "arn:aws:sns:us-east-1:10101010:ext-topic")).1.arn = none := by
  have h := (topic_external_address_fixed [] [] "ext-topic" none
    (some "arn:aws:sns:us-east-1:10101010:ext-topic")).2 rfl
  exact ⟨h.1, h.2.1⟩

/-- C7: two distinct functions each declaring the boolean queue shorthand
(`queue: true`) derive the queue names `<F1>-queue` and `<F2>-queue`, which
differ whenever the function names differ, so the two functions never share
a queue entity. -/
theorem boolean_queue_shorthand_distinct (f1 f2 : SFunc)
    (t1 t2 : Option TopicRef) (h : f1.name ≠ f2.name) :
    pullQueueNameFromEvent (.obj t1 (some (.bool true))) f1
      = some (f1.name ++ "-queue")
    ∧ pullQueueNameFromEvent (.obj t2 (some (.bool true))) f2
      = some (f2.name ++ "-queue")
    ∧ f1.name ++ "-queue" ≠ f2.name ++ "-queue" := by
  refine ⟨rfl, rfl, ?_⟩
  intro heq
  apply h
  have h2 := congrArg String.data heq
  simp only [String.data_append] at h2
  exact String.ext (List.append_cancel_right h2)

/-- C7 witness: functions `foo` and `bar` with the boolean shorthand get
`foo-queue` and `bar-queue`. -/
theorem boolean_queue_shorthand_distinct_witness :
    pullQueueNameFromEvent (.obj none (some (.bool true))) ⟨"foo", none⟩
      = some "foo-queue"
    ∧ pullQueueNameFromEvent (.obj none (some (.bool true))) ⟨"bar", none⟩
      = some "bar-queue"
    ∧ "foo" ++ "-queue" ≠ "bar" ++ "-queue" := by
  have h := boolean_queue_shorthand_distinct ⟨"foo", none⟩ ⟨"bar", none⟩
    none none (by decide)
  exact h

/-- C6 counterexample: for a pubSub event whose `queue` field is an explicit
object with no `name` key, `pullQueueNameFromEvent` yields no name at all
(JS `undefined`) — not the function-derived default `bar-queue` the claim
requires — and collection therefore produces a single Topic→Function
subscription with no queue entity. -/
theorem queue_object_without_name_counterexample :
    pullQueueNameFromEvent
      (.obj (some (.str "foo-happened")) (some (.obj none none)))
      ⟨"bar", none⟩ = none
    ∧ (none : Option String) ≠ some ("bar" ++ "-queue")
    ∧ collectFromEvent [] [] ⟨[], [], []⟩ ⟨"bar", none⟩
        (.obj (some (.str "foo-happened")) (some (.obj none none)))
      = .ok ⟨[⟨"foo-happened", [], none⟩], [],
             [.topicToFunc ⟨"foo-happened", [], none⟩ ⟨"bar", none⟩ []]⟩ := by
  refine ⟨rfl, by simp, rfl⟩

/-- C6 amended: a pubSub event descriptor whose `queue` field is an explicit
object lacking a `name` key resolves to no queue name, so the descriptor is
treated as queueless and yields exactly one Topic→Function subscription
(and no Queue→Function or Topic→Queue subscription and no queue entity). -/
theorem queue_object_without_name_yields_direct_subscription
    (ct cq : List (String × List (String × JVal))) (st : PluginState)
    (func : SFunc) (tr : TopicRef) (qsub : Option (List (String × JVal)))
    (ht : jsTruthyStr (pullTopicNameFromEvent
        (.obj (some tr) (some (.obj none qsub)))) = true) :
    pullQueueNameFromEvent (.obj (some tr) (some (.obj none qsub))) func
      = none
    ∧ collectFromEvent ct cq st func (.obj (some tr) (some (.obj none qsub)))
      = .ok ⟨(getTopic ct st.topics
              ((pullTopicNameFromEvent
                (.obj (some tr) (some (.obj none qsub)))).getD "")
              (topicExternalArn (.obj (some tr) (some (.obj none qsub))))).2,
             st.queues,
             st.subscriptions ++
               [.topicToFunc
                 (getTopic ct st.topics
                   ((pullTopicNameFromEvent
                     (.obj (some tr) (some (.obj none qsub)))).getD "")
                   (topicExternalArn
                     (.obj (some tr) (some (.obj none qsub))))).1
                 func
                 (pullTopicSubscriptionDetailsFromEvent
                   (.obj (some tr) (some (.obj none qsub))))]⟩ := by
  refine ⟨rfl, ?_⟩
  simp [collectFromEvent, ht, pullQueueNameFromEvent, jsTruthyStr]
  simpa [jsTruthyStr] using ht

/-- C6 amended witness: concrete run with topic `foo-happened` and a
name-less queue object, yielding one Topic→Function subscription. -/
theorem queue_object_without_name_yields_direct_subscription_witness :
    jsTruthyStr (pullTopicNameFromEvent
      (.obj (some (.str "foo-happened")) (some (.obj none none)))) = true
    ∧ pullQueueNameFromEvent
        (.obj (some (.str "foo-happened")) (some (.obj none none)))
        ⟨"baz", none⟩ = none
    ∧ collectFromEvent [] [] ⟨[], [], []⟩ ⟨"baz", none⟩
        (.obj (some (.str "foo-happened")) (some (.obj none none)))
      = .ok ⟨[⟨"foo-happened", [], none⟩], [],
             [.topicToFunc ⟨"foo-happened", [], none⟩ ⟨"baz", none⟩ []]⟩ := by
  have h := queue_object_without_name_yields_direct_subscription [] []
    ⟨[], [], []⟩ ⟨"baz", none⟩ (.str "foo-happened") none rfl
  exact ⟨rfl, h.1, h.2⟩

theorem qfSubs_map_queueToFunc (q : SQueue) (fs : List SFunc) :
    qfSubs (fs.map (fun f => PSub.queueToFunc q f []))
      = fs.map (fun f => (q, f)) := by
  induction fs with
  | nil => rfl
  | cons f fs ih => simp [qfSubs] at ih ⊢; exact ih

theorem foldl_insertGroup_same_queue (q : SQueue) (gs : List SFunc)
    (cur : List (SQueue × SFunc)) :
    List.foldl insertGroup [(q.name, cur)] (gs.map (fun f => (q, f)))
      = [(q.name, cur ++ gs.map (fun f => (q, f)))] := by
  induction gs generalizing cur with
  | nil => simp
  | cons f gs ih =>
    have hstep : insertGroup [(q.name, cur)] (q, f)
        = [(q.name, cur ++ [(q, f)])] := by
      simp [insertGroup, hasKey, lookupKey]
    simp only [List.map_cons, List.foldl_cons, hstep, ih]
    simp

theorem subsByQueue_single_queue (q : SQueue) (f : SFunc) (fs : List SFunc) :
    subsByQueue ((f :: fs).map (fun g => PSub.queueToFunc q g []))
      = [(q.name, (f :: fs).map (fun g => (q, g)))] := by
  unfold subsByQueue
  rw [qfSubs_map_queueToFunc]
  simp only [List.map_cons, List.foldl_cons]
  have h0 : insertGroup [] (q, f) = [(q.name, [(q, f)])] := by
    simp [insertGroup, hasKey, lookupKey]
  rw [h0, foldl_insertGroup_same_queue]
  simp

/-- C1: for a queue with Queue→Function subscriptions whose configuration
(queue custom block or service-wide queue defaults) carries no truthy
visibility window, the pass sets the queue's `VisibilityTimeout` to the
maximum subscriber timeout plus 5, where each subscriber's timeout falls
back to the provider timeout and then to the global default 6. -/
theorem visibility_window_set_to_max_plus_five
    (pt : Option Int) (qd : List (String × JVal)) (q : SQueue)
    (f : SFunc) (fs : List SFunc)
    (hcfg : jsTruthyOpt (jsOrV (lookupKey q.vendorConfig "VisibilityTimeout")
        (lookupKey qd "VisibilityTimeout")) = false) :
    adjustQueueVisibilityTimeout pt qd
        ((f :: fs).map (fun g => PSub.queueToFunc q g []))
      = .ok [(q.name, setKey q.vendorConfig "VisibilityTimeout"
          (.num (listMaxInt ((f :: fs).map
            (fun g => jsOrInt g.timeout (jsOrInt pt 6))) + 5)))] := by
  unfold adjustQueueVisibilityTimeout
  rw [subsByQueue_single_queue]
  have hgrp : adjustGroup pt qd (q.name, (f :: fs).map (fun g => (q, g)))
      = .ok (q.name, setKey q.vendorConfig "VisibilityTimeout"
          (.num (listMaxInt ((f :: fs).map
            (fun g => jsOrInt g.timeout (jsOrInt pt 6))) + 5))) := by
    simp only [adjustGroup, List.map_cons, hcfg]
    simp only [List.map_map]
    rfl
  simp only [List.map_cons] at hgrp
  simp [List.mapM.loop, hgrp]

/-- C1 witness: subscriber timeouts [10, 30, 6] and no visibility window
anywhere give a resolved visibility window of 35. -/
theorem visibility_window_set_to_max_plus_five_witness :
    adjustQueueVisibilityTimeout none []
        ([⟨"f1", some 10⟩, ⟨"f2", some 30⟩, ⟨"f3", some 6⟩].map
          (fun g => PSub.queueToFunc ⟨"bar-queue", []⟩ g []))
      = .ok [("bar-queue", [("VisibilityTimeout", .num 35)])] := by
  have h := visibility_window_set_to_max_plus_five none [] ⟨"bar-queue", []⟩
    ⟨"f1", some 10⟩ [⟨"f2", some 30⟩, ⟨"f3", some 6⟩] rfl
  exact h

/-- C2 counterexample: with subscriber timeouts [10, 30, 6] and an explicit
visibility window of 20, the pass fails naming the computed maximum
subscriber timeout 30 — not the claimed required minimum 35 — and a
configured window of 32, although below 35, passes without error. -/
theorem visibility_window_error_counterexample :
    adjustQueueVisibilityTimeout none []
        ([⟨"f1", some 10⟩, ⟨"f2", some 30⟩, ⟨"f3", some 6⟩].map
          (fun g => PSub.queueToFunc ⟨"bar-queue",
            [("VisibilityTimeout", JVal.num 20)]⟩ g []))
      = .error ⟨"bar-queue", .num 20, 30⟩
    ∧ (30 : Int) ≠ 35
    ∧ adjustQueueVisibilityTimeout none []
        ([⟨"f1", some 10⟩, ⟨"f2", some 30⟩, ⟨"f3", some 6⟩].map
          (fun g => PSub.queueToFunc ⟨"bar-queue",
            [("VisibilityTimeout", JVal.num 32)]⟩ g []))
      = .ok [("bar-queue", [("VisibilityTimeout", JVal.num 32)])] := by
  refine ⟨rfl, by decide, rfl⟩

/-- C2 amended: for every queue with Queue→Function subscriptions whose
merged configuration specifies a (truthy, numeric) visibility window
smaller than the computed maximum subscriber timeout, the pass fails
fatally with an error naming the queue, the configured value, and the
maximum subscriber timeout (not maximum + 5). -/
theorem visibility_window_below_max_fails
    (pt : Option Int) (qd : List (String × JVal)) (q : SQueue)
    (f : SFunc) (fs : List SFunc) (n : Int)
    (hcfg : jsOrV (lookupKey q.vendorConfig "VisibilityTimeout")
        (lookupKey qd "VisibilityTimeout") = some (.num n))
    (hn : n ≠ 0)
    (hlt : n < listMaxInt ((f :: fs).map
        (fun g => jsOrInt g.timeout (jsOrInt pt 6)))) :
    adjustQueueVisibilityTimeout pt qd
        ((f :: fs).map (fun g => PSub.queueToFunc q g []))
      = .error ⟨q.name, .num n, listMaxInt ((f :: fs).map
          (fun g => jsOrInt g.timeout (jsOrInt pt 6)))⟩ := by
  unfold adjustQueueVisibilityTimeout
  rw [subsByQueue_single_queue]
  have hgrp : adjustGroup pt qd (q.name, (f :: fs).map (fun g => (q, g)))
      = .error ⟨q.name, .num n, listMaxInt ((f :: fs).map
          (fun g => jsOrInt g.timeout (jsOrInt pt 6)))⟩ := by
    simp only [adjustGroup, List.map_cons, hcfg]
    have hmax : List.map (fun qf => jsOrInt qf.2.timeout (jsOrInt pt 6))
        (List.map (fun g => (q, g)) fs)
        = List.map (fun g => jsOrInt g.timeout (jsOrInt pt 6)) fs := by
      rw [List.map_map]
      rfl
    rw [hmax]
    have htr : jsTruthyOpt (some (JVal.num n)) = true := by
      simpa [jsTruthyOpt, jsTruthy] using hn
    simp only [List.map_cons] at hlt
    have hltb : jsLtOpt (some (JVal.num n)) (listMaxInt (jsOrInt f.timeout
        (jsOrInt pt 6) :: List.map (fun g => jsOrInt g.timeout
        (jsOrInt pt 6)) fs)) = true := by
      simpa [jsLtOpt, jsLtInt] using hlt
    simp only [htr, hltb, if_true]
    rfl
  simp only [List.map_cons] at hgrp
  simp [List.mapM.loop, hgrp]

/-- C2 amended witness: subscriber timeouts [10, 30, 6] with an explicit
visibility window of 20 fail with an error naming `bar-queue`, 20, and the
maximum subscriber timeout 30. -/
theorem visibility_window_below_max_fails_witness :
    adjustQueueVisibilityTimeout none []
        ([⟨"fa", some 10⟩, ⟨"fb", some 30⟩, ⟨"fc", some 6⟩].map
          (fun g => PSub.queueToFunc ⟨"work-queue",
            [("VisibilityTimeout", JVal.num 20)]⟩ g []))
      = .error ⟨"work-queue", .num 20, 30⟩ := by
  have h := visibility_window_below_max_fails none []
    ⟨"work-queue", [("VisibilityTimeout", JVal.num 20)]⟩
    ⟨"fa", some 10⟩ [⟨"fb", some 30⟩, ⟨"fc", some 6⟩] 20 rfl
    (by decide) (by decide)
  exact h

theorem unique_eq_self {α : Type} (l : List α) (selector : α → String) :
    unique l selector = l := by
  simp [unique, seenHasResult]

theorem lookupKey_append {α : Type} (a b : List (String × α)) (k : String) :
    lookupKey (a ++ b) k = (lookupKey a k).or (lookupKey b k) := by
  induction a with
  | nil => simp [lookupKey]
  | cons kv rest ih =>
    obtain ⟨k', v⟩ := kv
    simp only [List.cons_append, lookupKey]
    split
    · simp
    · exact ih

theorem lookupKey_map_override (base upd : List (String × JVal))
    (k : String) :
    lookupKey (base.map (fun kv =>
      match lookupKey upd kv.1 with
      | some v => (kv.1, v)
      | none => kv)) k
    = match lookupKey upd k with
      | some v => if hasKey base k then some v else none
      | none => lookupKey base k := by
  induction base with
  | nil => cases h : lookupKey upd k <;> simp [lookupKey, hasKey, h]
  | cons kv rest ih =>
    obtain ⟨k', v'⟩ := kv
    by_cases hk : k' = k
    · subst hk
      cases h : lookupKey upd k' with
      | some v => simp [lookupKey, hasKey, h]
      | none => simp [lookupKey, hasKey, h]
    · cases h : lookupKey upd k with
      | some v =>
        cases h' : lookupKey upd k' with
        | some w =>
          simp only [List.map_cons, lookupKey, h']
          rw [if_neg hk]
          rw [ih, h]
          simp [hasKey, lookupKey, hk]
        | none =>
          simp only [List.map_cons, lookupKey, h']
          rw [if_neg hk]
          rw [ih, h]
          simp [hasKey, lookupKey, hk]
      | none =>
        cases h' : lookupKey upd k' with
        | some w =>
          simp only [List.map_cons, lookupKey, h']
          rw [if_neg hk]
          rw [ih, h]
          simp [lookupKey, hk]
        | none =>
          simp only [List.map_cons, lookupKey, h']
          rw [if_neg hk]
          rw [ih, h]
          simp [lookupKey, hk]

theorem lookupKey_filter_not_hasKey (base upd : List (String × JVal))
    (k : String) :
    lookupKey (upd.filter (fun kv => !(hasKey base kv.1))) k
    = if hasKey base k then none else lookupKey upd k := by
  induction upd with
  | nil => simp [lookupKey]
  | cons kv rest ih =>
    obtain ⟨k', v'⟩ := kv
    by_cases hb : hasKey base k'
    · by_cases hk : k' = k
      · subst hk
        simp [List.filter_cons, hb, ih, lookupKey]
      · simp [List.filter_cons, hb, ih, lookupKey, hk]
    · by_cases hk : k' = k
      · subst hk
        simp [List.filter_cons, hb, lookupKey]
      · simp [List.filter_cons, hb, ih, lookupKey, hk]

theorem lookupKey_assign2 (base upd : List (String × JVal)) (k : String) :
    lookupKey (assign2 base upd) k
      = (lookupKey upd k).or (lookupKey base k) := by
  unfold assign2
  rw [lookupKey_append, lookupKey_map_override, lookupKey_filter_not_hasKey]
  cases h : lookupKey upd k <;> by_cases hb : hasKey base k <;> simp [hb]

theorem lookupKey_assignProps (d p c : List (String × JVal)) (k : String) :
    lookupKey (assignProps d p c) k
      = (lookupKey c k).or ((lookupKey p k).or (lookupKey d k)) := by
  unfold assignProps
  rw [lookupKey_assign2, lookupKey_assign2]

/-- C8 amended: for every generated resource the properties map is a
per-key shallow merge whose precedence (low to high) is service-wide
defaults for the entity kind, then computed default properties, then the
entity-specific (or per-subscription inline) configuration — the value for
any key is the entity-specific one when present, else the computed one,
else the kind-default one, with nested values replaced whole. -/
theorem generated_properties_merge_precedence (ctx : Ctx) (q : SQueue)
    (t : Topic) (s : PSub) (k : String) :
    lookupKey (sqsQueueProps ctx q) k
      = (lookupKey q.vendorConfig k).or
        ((lookupKey (sqsQueueComputedProps ctx q) k).or
          (lookupKey ctx.queueDefaults k))
    ∧ lookupKey (snsTopicProps ctx t) k
      = (lookupKey t.vendorConfig k).or
        ((lookupKey (snsTopicComputedProps ctx t) k).or
          (lookupKey ctx.topicDefaults k))
    ∧ lookupKey (snsSubscriptionProps ctx s) k
      = (lookupKey (subVendorConfig s) k).or
        ((lookupKey (snsSubscriptionComputedProps ctx s) k).or
          (lookupKey ctx.topicSubscriptionDefaults k))
    ∧ lookupKey (sqsLambdaSubscriptionProps ctx s) k
      = (lookupKey (subVendorConfig s) k).or
        ((lookupKey (sqsLambdaComputedProps ctx s) k).or
          (lookupKey ctx.queueSubscriptionDefaults k)) :=
  ⟨lookupKey_assignProps _ _ _ _, lookupKey_assignProps _ _ _ _,
   lookupKey_assignProps _ _ _ _, lookupKey_assignProps _ _ _ _⟩

/-- C8 counterexample: a key present in both the computed layer
(`QueueName`) and the service-wide queue defaults.  The claim's precedence
makes the service-wide default win; the code gives the computed property
precedence over the service-wide default, so the generated queue
properties carry the namespaced computed name, not the default block's
value. -/
theorem merge_precedence_counterexample :
    lookupKey (sqsQueueProps
      ⟨mockNaming, "serviceName", "stageName", false, [],
        [("QueueName", JVal.str "OVERRIDDEN")], [], []⟩
      ⟨"bar-queue", []⟩) "QueueName"
      = some (.str "serviceName-stageName-bar-queue")
    ∧ lookupKey (specMergedProps [("QueueName", JVal.str "OVERRIDDEN")]
        (sqsQueueComputedProps
          ⟨mockNaming, "serviceName", "stageName", false, [],
            [("QueueName", JVal.str "OVERRIDDEN")], [], []⟩
          ⟨"bar-queue", []⟩) []) "QueueName"
      = some (.str "OVERRIDDEN")
    ∧ "serviceName-stageName-bar-queue" ≠ "OVERRIDDEN" := by
  refine ⟨rfl, rfl, by decide⟩

theorem lookupKey_eq_none_of_not_hasKey {α : Type}
    {m : List (String × α)} {k : String} (h : hasKey m k = false) :
    lookupKey m k = none := by
  cases hm : lookupKey m k with
  | none => rfl
  | some v => rw [hasKey, hm] at h; simp at h

theorem lookupKey_map_set {α : Type} (m : List (String × α)) (k : String)
    (v : α) (h : hasKey m k = true) :
    lookupKey (m.map (fun kv => if kv.1 = k then (kv.1, v) else kv)) k
      = some v := by
  induction m with
  | nil => simp [hasKey, lookupKey] at h
  | cons kv rest ih =>
    obtain ⟨k', w⟩ := kv
    simp only [List.map_cons]
    by_cases hk : k' = k
    · subst hk
      rw [show (if (k', w).1 = k' then ((k', w).1, v) else (k', w))
          = (k', v) from by simp]
      simp [lookupKey]
    · rw [show (if (k', w).1 = k then ((k', w).1, v) else (k', w))
          = (k', w) from by simp [hk]]
      have hrest : hasKey rest k = true := by
        simpa [hasKey, lookupKey, hk] using h
      simp [lookupKey, hk, ih hrest]

theorem lookupKey_setKey_self {α : Type} (m : List (String × α))
    (k : String) (v : α) :
    lookupKey (setKey m k v) k = some v := by
  by_cases h : hasKey m k
  · simp only [setKey, h, if_true]
    exact lookupKey_map_set m k v h
  · have h' : hasKey m k = false := by simpa using h
    simp only [setKey, h', Bool.false_eq_true, if_false]
    rw [lookupKey_append, lookupKey_eq_none_of_not_hasKey h']
    simp [lookupKey]

/-- C4 counterexample: a state reachable from a custom configuration block
alone — one orphan queue and one topic, with no subscription of any kind —
still gets the shared queue policy: `allowSNSToSQSSubscriptions` consults
only the `queues` and `topics` collections, never the subscriptions, so
the policy is not restricted to queues with an incoming Topic→Queue
subscription or to origin topics of such subscriptions. -/
theorem access_policy_counterexample :
    (collectPubSubResourcesFromCustomConfig [("foo-happened", [])]
      [("orphan-queue", [])] ⟨[], [], []⟩).subscriptions = []
    ∧ (collectPubSubResourcesFromCustomConfig [("foo-happened", [])]
      [("orphan-queue", [])] ⟨[], [], []⟩).queues = [⟨"orphan-queue", []⟩]
    ∧ (collectPubSubResourcesFromCustomConfig [("foo-happened", [])]
      [("orphan-queue", [])] ⟨[], [], []⟩).topics
        = [⟨"foo-happened", [], none⟩]
    ∧ lookupKey (allowSNSToSQSSubscriptions
        ⟨mockNaming, "serviceName", "stageName", false, [], [], [], []⟩
        [⟨"orphan-queue", []⟩] [⟨"foo-happened", [], none⟩] [])
        "SNSToSQSPolicy"
      = some (snsToSQSPolicy
        ⟨mockNaming, "serviceName", "stageName", false, [], [], [], []⟩
        [⟨"orphan-queue", []⟩] [⟨"foo-happened", [], none⟩]) := by
  refine ⟨rfl, rfl, rfl, rfl⟩

/-- C4 amended: resolution constructs exactly one shared queue-policy
resource, stored under the fixed key `SNSToSQSPolicy`; it is created
exactly when the model holds at least one queue and at least one topic (of
any kind, subscribed or not); its queue list holds one reference per queue
in the model (each queue exactly once), and origin permission is one
statement whose `ArnEquals` condition holds the list of every topic's
reference — a Ref for locally-managed topics and the literal external
address otherwise — not one statement per topic/queue pair. -/
theorem access_policy_shape (ctx : Ctx) (queues : List SQueue)
    (topics : List Topic) (res : List (String × JVal))
    (hres : lookupKey res "SNSToSQSPolicy" = none) :
    (queues ≠ [] → topics ≠ [] →
      lookupKey (allowSNSToSQSSubscriptions ctx queues topics res)
          "SNSToSQSPolicy"
        = some (snsToSQSPolicy ctx queues topics))
    ∧ (queues = [] ∨ topics = [] →
        allowSNSToSQSSubscriptions ctx queues topics res = res)
    ∧ jPath (snsToSQSPolicy ctx queues topics) ["Properties", "Queues"]
      = some (.arr (queues.map (fun q =>
          .obj [("Ref", .str (getActualQueueLogicalId ctx.naming
            q.name))])))
    ∧ jPath (snsToSQSPolicy ctx queues topics)
        ["Properties", "PolicyDocument", "Statement"]
      = some (.arr [.obj [
          ("Effect", .str "Allow"),
          ("Principal", .str "*"),
          ("Action", .str "sqs:SendMessage"),
          ("Resource", .str "*"),
          ("Condition", .obj [("ArnEquals", .obj [("aws:SourceArn",
            .arr (topics.map (fun t => topicArnOr t
              (.obj [("Ref", .str (ctx.naming.getTopicLogicalId
                t.name))]))))])])]]) := by
  refine ⟨?_, ?_, ?_, ?_⟩
  · intro hq ht
    have hql : 0 < ((unique queues SQueue.name).map (fun q =>
        JVal.obj [("Ref", .str (getActualQueueLogicalId ctx.naming
          q.name))])).length := by
      rw [unique_eq_self]
      simpa using List.length_pos.mpr hq
    have htl : 0 < ((unique topics Topic.name).map (fun t => topicArnOr t
        (.obj [("Ref", .str (ctx.naming.getTopicLogicalId
          t.name))]))).length := by
      rw [unique_eq_self]
      simpa using List.length_pos.mpr ht
    simp only [allowSNSToSQSSubscriptions, hres, Option.getD_none]
    rw [if_pos ⟨hql, htl⟩]
    exact lookupKey_setKey_self res "SNSToSQSPolicy" _
  · intro h
    simp only [allowSNSToSQSSubscriptions]
    rw [if_neg]
    intro hcon
    cases h with
    | inl h => rw [unique_eq_self] at hcon; simp [h] at hcon
    | inr h => rw [unique_eq_self, unique_eq_self] at hcon; simp [h] at hcon
  · simp [snsToSQSPolicy, jPath, lookupKey, unique_eq_self]
  · simp [snsToSQSPolicy, jPath, lookupKey, unique_eq_self]

/-- C4 amended witness: two queues and two topics (one external) yield the
policy with one Ref per queue and one statement whose condition lists the
local topic's Ref and the external topic's literal address. -/
theorem access_policy_shape_witness :
    lookupKey (allowSNSToSQSSubscriptions
        ⟨mockNaming, "serviceName", "stageName", false, [], [], [], []⟩
        [⟨"bar-queue", []⟩, ⟨"handleExtEvt-queue", []⟩]
        [⟨"foo-happened", [], none⟩,
         ⟨"some-external-topic", [],
          some "arn:aws:sns:us-east-1:10101010:some-external-topic"⟩] [])
        "SNSToSQSPolicy"
      = some (snsToSQSPolicy
        ⟨mockNaming, "serviceName", "stageName", false, [], [], [], []⟩
        [⟨"bar-queue", []⟩, ⟨"handleExtEvt-queue", []⟩]
        [⟨"foo-happened", [], none⟩,
         ⟨"some-external-topic", [],
          some "arn:aws:sns:us-east-1:10101010:some-external-topic"⟩])
    ∧ jPath (snsToSQSPolicy
        ⟨mockNaming, "serviceName", "stageName", false, [], [], [], []⟩
        [⟨"bar-queue", []⟩, ⟨"handleExtEvt-queue", []⟩]
        [⟨"foo-happened", [], none⟩,
         ⟨"some-external-topic", [],
          some "arn:aws:sns:us-east-1:10101010:some-external-topic"⟩])
        ["Properties", "Queues"]
      = some (.arr [.obj [("Ref", .str "SQSQueuebarqueue")],
          .obj [("Ref", .str "SQSQueuehandleExtEvtqueue")]]) := by
  have h := access_policy_shape
    ⟨mockNaming, "serviceName", "stageName", false, [], [], [], []⟩
    [⟨"bar-queue", []⟩, ⟨"handleExtEvt-queue", []⟩]
    [⟨"foo-happened", [], none⟩,
     ⟨"some-external-topic", [],
      some "arn:aws:sns:us-east-1:10101010:some-external-topic"⟩] [] rfl
  refine ⟨h.1 (by simp) (by simp), ?_⟩
  rw [h.2.2.1]
  rfl

/-- C5: a topic carrying a (truthy) external address produces no topic
resource (the topics loop filters it out), its publish-permission entry is
the literal external address rather than a generated reference, and its
subscription resources carry the literal address as `TopicArn` — both in
the computed properties and in the final merged properties whenever the
inline subscription configuration does not itself override `TopicArn`. -/
theorem external_topic_resources (ctx : Ctx) (t : Topic) (a : String)
    (topics : List Topic) (res : List (String × JVal)) (stmts : List JVal)
    (sub : PSub)
    (ha : t.arn = some a) (hne : a.isEmpty = false)
    (hsub : originArnOf sub = some a)
    (hvc : lookupKey (subVendorConfig sub) "TopicArn" = none) :
    generateTopicResources ctx (t :: topics) res
      = generateTopicResources ctx topics res
    ∧ publishResourceEntry ctx t = .str a
    ∧ allowLambdasToPublishSNS ctx (t :: topics) stmts
      = stmts ++ [.obj [
          ("Effect", .str "Allow"),
          ("Action", .arr [.str "sns:Publish"]),
          ("Resource", .arr (JVal.str a ::
            topics.map (publishResourceEntry ctx)))]]
    ∧ lookupKey (snsSubscriptionComputedProps ctx sub) "TopicArn"
      = some (.str a)
    ∧ lookupKey (snsSubscriptionProps ctx sub) "TopicArn"
      = some (.str a) := by
  have hentry : publishResourceEntry ctx t = .str a := by
    simp [publishResourceEntry, topicArnOr, ha, hne]
  have hcomputed : lookupKey (snsSubscriptionComputedProps ctx sub)
      "TopicArn" = some (.str a) := by
    simp [snsSubscriptionComputedProps, lookupKey, hsub, hne]
  refine ⟨?_, hentry, ?_, hcomputed, ?_⟩
  · have hfil : topicArnTruthy t = true := by
      simp [topicArnTruthy, ha, hne]
    simp [generateTopicResources, List.filter_cons, hfil]
  · simp [allowLambdasToPublishSNS, hentry]
  · rw [show snsSubscriptionProps ctx sub
        = assignProps ctx.topicSubscriptionDefaults
          (snsSubscriptionComputedProps ctx sub) (subVendorConfig sub)
        from rfl]
    rw [lookupKey_assignProps, hvc, hcomputed]
    rfl

/-- C5 witness: the external topic `some-external-topic` with its literal
arn, subscribed to by `handleExtEvt-queue`. -/
theorem external_topic_resources_witness :
    generateTopicResources
      ⟨mockNaming, "serviceName", "stageName", false, [], [], [], []⟩
      [⟨"some-external-topic", [],
        some "arn:aws:sns:us-east-1:10101010:some-external-topic"⟩] []
      = []
    ∧ publishResourceEntry
      ⟨mockNaming, "serviceName", "stageName", false, [], [], [], []⟩
      ⟨"some-external-topic", [],
        some "arn:aws:sns:us-east-1:10101010:some-external-topic"⟩
      = .str "arn:aws:sns:us-east-1:10101010:some-external-topic"
    ∧ lookupKey (snsSubscriptionProps
        ⟨mockNaming, "serviceName", "stageName", false, [], [], [], []⟩
        (.topicToQueue ⟨"some-external-topic", [],
          some "arn:aws:sns:us-east-1:10101010:some-external-topic"⟩
          ⟨"handleExtEvt-queue", []⟩ [])) "TopicArn"
      = some (.str "arn:aws:sns:us-east-1:10101010:some-external-topic") := by
  have h := external_topic_resources
    ⟨mockNaming, "serviceName", "stageName", false, [], [], [], []⟩
    ⟨"some-external-topic", [],
      some "arn:aws:sns:us-east-1:10101010:some-external-topic"⟩
    "arn:aws:sns:us-east-1:10101010:some-external-topic" [] [] []
    (.topicToQueue ⟨"some-external-topic", [],
      some "arn:aws:sns:us-east-1:10101010:some-external-topic"⟩
      ⟨"handleExtEvt-queue", []⟩ [])
    rfl rfl rfl rfl
  exact ⟨h.1, h.2.1, h.2.2.2.2⟩

/-- C9: one publish to a topic with one Topic→Queue subscriber and one
Topic→Function subscriber delivers to both; the queue receives the topic's
notification envelope as its body, the function receives the notification
wrapped in a records envelope with event source/version metadata, and both
envelopes embed the same message identifier. -/
theorem simulator_publish_fans_out (now : String) (nowMs : Int)
    (senderId : String) (t : Topic) (q : SQueue) (f : SFunc)
    (c1 c2 : List (String × JVal)) (messageId message : String) :
    publishToSubscriptions now nowMs senderId
        [.topicToQueue t q c1, .topicToFunc t f c2] t.name messageId message
      = [⟨q.name, formatMessageDetails t.name now messageId message⟩,
         ⟨f.name, .obj [("Records", .arr [.obj [
           ("EventVersion", .str "1.0"),
           ("EventSource", .str "aws:sns"),
           ("Sns", formatMessageDetails t.name now messageId
             message)]])]⟩]
    ∧ jPath (formatMessageDetails t.name now messageId message)
        ["MessageId"] = some (.str messageId)
    ∧ ((jPath (encodeMessage now nowMs senderId (.topicToFunc t f c2)
          messageId message) ["Records"]).bind
        (fun r => jIdx r 0)).bind (fun r => jPath r ["Sns", "MessageId"])
      = some (.str messageId) := by
  refine ⟨?_, ?_, ?_⟩
  · simp [publishToSubscriptions, originName, subscriberName,
      encodeMessage]
  · simp [formatMessageDetails, jPath, lookupKey]
  · simp [encodeMessage, formatMessageDetails, jPath, jIdx, lookupKey]

end PubSubPlugin
